import Mathlib

/-
Verification of the deep-work-tracker menu bar application.

The Python sources (src/app.py, src/deep_work_timer.py) are shallowly
embedded below.  Calendar dates are modelled as integers (ordinal day
numbers), so that `datetime.now().date()` becomes a parameter `today : Int`
and `timedelta(days := k)` becomes integer subtraction.  Durations in
minutes are Python floats in the source; they are modelled as rationals.
A stored entry's `date` field is a string parsed with
`datetime.fromisoformat`; we model the parse result directly as
`Option Int`, `none` standing for a malformed/unparseable timestamp
(the `except ValueError: continue` path in `show_statistics`).
-/

namespace DeepWork


/-- One stored time entry: the parse result of its ISO timestamp's calendar
date (`none` when `datetime.fromisoformat` raises `ValueError`), and its
duration in minutes (`entry["time"]`). -/
structure Entry where
  date : Option Int
  time : ℚ
  deriving Repr, DecidableEq

/-- The daily / weekly / lifetime accumulators of one category in
`show_statistics` (src/app.py lines 669-697). -/
structure Stats where
  daily : ℚ
  weekly : ℚ
  lifetime : ℚ
  deriving Repr, DecidableEq

/-- One iteration of the inner loop of `show_statistics`: skip the entry if
its timestamp does not parse; otherwise add its time to `lifetime`, to
`daily` when its date equals `today`, and to `weekly` when
`week_ago <= entry_date <= today` with `week_ago = today - timedelta(days=7)`. -/
def statsStep (today : Int) (acc : Stats) (e : Entry) : Stats :=
  match e.date with
  | none => acc
  | some entry_date =>
    let acc1 := { acc with lifetime := acc.lifetime + e.time }
    let acc2 :=
      if entry_date = today then { acc1 with daily := acc1.daily + e.time } else acc1
    if today - 7 ≤ entry_date ∧ entry_date ≤ today then
      { acc2 with weekly := acc2.weekly + e.time }
    else acc2

/-- The per-category statistics accumulation of `show_statistics`. -/
def categoryStats (today : Int) (entries : List Entry) : Stats :=
  entries.foldl (statsStep today) ⟨0, 0, 0⟩

/-- Componentwise sum of statistics, used for the overall totals. -/
def addStats (a b : Stats) : Stats :=
  ⟨a.daily + b.daily, a.weekly + b.weekly, a.lifetime + b.lifetime⟩

/-- The overall totals of `show_statistics`: the per-category statistics
summed over all categories, in the order the outer loop visits them. -/
def overallStats (today : Int) (cats : List (String × List Entry)) : Stats :=
  cats.foldl (fun acc p => addStats acc (categoryStats today p.2)) ⟨0, 0, 0⟩

/-- Contribution of one entry to the daily total. -/
def dailyContrib (today : Int) (e : Entry) : ℚ :=
  match e.date with
  | none => 0
  | some d => if d = today then e.time else 0

/-- Contribution of one entry to the weekly total, with the window the code
actually tests: `today - 7 ≤ d ∧ d ≤ today`. -/
def weeklyContrib (today : Int) (e : Entry) : ℚ :=
  match e.date with
  | none => 0
  | some d => if today - 7 ≤ d ∧ d ≤ today then e.time else 0

/-- Contribution of one entry to the lifetime total: its time when its
timestamp parses, nothing otherwise. -/
def lifetimeContrib (e : Entry) : ℚ :=
  match e.date with
  | none => 0
  | some _ => e.time

/-- Membership test for the weekly window as the code computes it. -/
def inCodeWeeklyWindow (today : Int) (e : Entry) : Bool :=
  match e.date with
  | none => false
  | some d => decide (today - 7 ≤ d ∧ d ≤ today)

/-- Modelled from the spec: the weekly window as the specification words it,
"entries whose date falls within `[now.date - 6 days, now.date]` inclusive".
This definition follows the spec text, to be compared with
`inCodeWeeklyWindow`, which follows the source. -/
def inSpecWeeklyWindow (today : Int) (e : Entry) : Bool :=
  match e.date with
  | none => false
  | some d => decide (today - 6 ≤ d ∧ d ≤ today)

/-- Sum of the minutes of a list of entries. -/
def sumTimes (entries : List Entry) : ℚ :=
  (entries.map Entry.time).sum

/-- Weekly total as the spec describes it: sum of minutes over the entries
in the spec's 7-day window. Modelled from the spec for comparison. -/
def specWeeklyTotal (today : Int) (entries : List Entry) : ℚ :=
  sumTimes (entries.filter (inSpecWeeklyWindow today))

/-- Rounding to the nearest integer with ties to even, the rounding mode of
Python's built-in `round`. -/
def roundHalfToEven (q : ℚ) : Int :=
  let n := ⌊q⌋
  let f := q - n
  if f < 1 / 2 then n
  else if 1 / 2 < f then n + 1
  else if n % 2 = 0 then n else n + 1

/-- Python's `round(q, 2)`: round to two decimal places, ties to even.
The source applies it to a float; the rational model is exact. -/
def pyRound2 (q : ℚ) : ℚ :=
  (roundHalfToEven (q * 100) : ℚ) / 100

/-- Python's `f"{n:02d}"` for the minute and second fields: zero-pad to two
digits (the values passed are always in `[0, 60)`). -/
def pad2 (n : Int) : String :=
  if 0 ≤ n ∧ n < 10 then "0" ++ n.repr else n.repr

/-- The `format_time` function (src/app.py lines 251-256 and
src/deep_work_timer.py lines 53-57): format seconds as `H:MM:SS`, hours
unpadded, minutes and seconds zero-padded to two digits.  Python's `//` and
`%` are floor division and nonnegative remainder, which on `Int` are the
`/` and `%` operators (`Int.ediv`/`Int.emod`). -/
def format_time (seconds : Int) : String :=
  let hrs := seconds / 3600
  let mins := (seconds % 3600) / 60
  let secs := seconds % 60
  hrs.repr ++ ":" ++ pad2 mins ++ ":" ++ pad2 secs

/-- The full state of `StopwatchApp` (src/app.py), with its observable
effects made explicit: `data` is `self.data["categories"]`, `file` is the
content of the persisted `data.json` (`self.save_data` copies `data` into
it), `backups` the files written to the backup directory, `alerts` the
`rumps.alert` calls and `notifications` the `rumps.notification` calls
issued so far, and `statsShown` the (overall, per-category) statistics
displayed by `show_statistics`.  `clockOn` models whether the shared
`rumps.Timer` is started; `modeSwitchEnabled` whether the "Timer Mode" menu
item is enabled. -/
structure AppState where
  is_timer_mode : Bool
  timer_duration : Int
  time_remaining : Int
  time_elapsed : Int
  running : Bool
  clockOn : Bool
  modeSwitchEnabled : Bool
  title : String
  labels : String × String × String
  data : List (String × List Entry)
  file : List (String × List Entry)
  backups : List (String × List (String × List Entry))
  alerts : List String
  notifications : List String
  statsShown : List (Stats × List (String × Stats))
  deriving Repr, DecidableEq

/-- The keys of the category dictionary, in insertion order. -/
def keysOf (cats : List (String × List Entry)) : List String :=
  cats.map Prod.fst

/-- Dictionary lookup `self.data["categories"][name]`. -/
def lookupCat : List (String × List Entry) → String → Option (List Entry)
  | [], _ => none
  | p :: rest, n => if p.1 = n then some p.2 else lookupCat rest n

/-- The effect of `self.data["categories"][name].append(entry)` when `name`
is a key of the dictionary. -/
def appendToCategory (cats : List (String × List Entry)) (name : String) (e : Entry) :
    List (String × List Entry) :=
  cats.map fun p => if p.1 = name then (p.1, p.2 ++ [e]) else p

/-- Record a `rumps.alert` call. -/
def addAlert (s : AppState) (m : String) : AppState :=
  { s with alerts := s.alerts ++ [m] }

/-- Record a `rumps.notification` call. -/
def addNotification (s : AppState) (m : String) : AppState :=
  { s with notifications := s.notifications ++ [m] }

/-- The `save_data` method: write `self.data` to the data file. -/
def save_data (s : AppState) : AppState :=
  { s with file := s.data }

/-- The `save_stopwatch_to_json` method: prompt for a category and save
`time_elapsed` minutes.  The category dialog is an external collaborator;
its outcome is the parameter `sel` (`none` = cancelled, otherwise the combo
box text).  Appending to a key absent from the dictionary raises `KeyError`
in Python, modelled by `none`. -/
def save_stopwatch_to_json (now : Int) (sel : Option String) (s : AppState) :
    Option AppState :=
  if s.data = [] then
    some (addAlert s "No categories available. Please add a category first.")
  else
    match sel with
    | none => some s
    | some category_name =>
      if category_name ∈ keysOf s.data then
        let time_value := pyRound2 ((s.time_elapsed : ℚ) / 60)
        some (save_data { s with
          data := appendToCategory s.data category_name ⟨some now, time_value⟩ })
      else none

/-- The `save_timer_to_json` method: like the stopwatch variant but saving
the elapsed portion of the timer; when `elapsed_seconds` is not supplied it
is computed as `timer_duration - time_remaining`. -/
def save_timer_to_json (now : Int) (sel : Option String) (elapsed_seconds : Option Int)
    (s : AppState) : Option AppState :=
  let elapsed := elapsed_seconds.getD (s.timer_duration - s.time_remaining)
  if s.data = [] then
    some (addAlert s "No categories available. Please add a category first.")
  else
    match sel with
    | none => some s
    | some category_name =>
      if category_name ∈ keysOf s.data then
        let time_value := pyRound2 ((elapsed : ℚ) / 60)
        some (save_data { s with
          data := appendToCategory s.data category_name ⟨some now, time_value⟩ })
      else none

/-- The `update_time` callback, fired once per second while the clock runs.
Timer mode decrements `time_remaining`; on reaching zero it stops the
clock, saves the finished session, resets `time_remaining` to
`timer_duration` and re-enables the mode switch.  Stopwatch mode increments
`time_elapsed`.  `now` and `sel` are the wall-clock date and the category
dialog outcome of the save triggered at zero. -/
def update_time (now : Int) (sel : Option String) (s : AppState) : Option AppState :=
  if s.is_timer_mode then
    let r := s.time_remaining - 1
    if r ≤ 0 then
      let s1 := { s with time_remaining := 0, clockOn := false, running := false,
                         title := "0:00:00" }
      (save_timer_to_json now sel none s1).map fun s2 =>
        { s2 with time_remaining := s2.timer_duration, title := "0:00:00",
                  modeSwitchEnabled := true }
    else
      some { s with time_remaining := r, title := format_time r }
  else
    some { s with time_elapsed := s.time_elapsed + 1,
                  title := format_time (s.time_elapsed + 1) }

/-- The `update_menu_labels` method: the three primary menu item titles
follow the active mode. -/
def update_menu_labels (s : AppState) : AppState :=
  if s.is_timer_mode then
    { s with labels :=
        ("Start/Resume Timer", "Pause Timer", "Reset and Save Timer") }
  else
    { s with labels :=
        ("Start/Resume Stopwatch", "Pause Stopwatch", "Reset and Save Stopwatch") }

/-- The `toggle_timer_mode` callback: rejected outright while running;
otherwise flips the mode, refreshes the labels, and resets the accumulator
and display of the newly selected mode. -/
def toggle_timer_mode (s : AppState) : AppState :=
  if s.running then s
  else
    let s1 := update_menu_labels { s with is_timer_mode := !s.is_timer_mode }
    if s1.is_timer_mode then
      { s1 with time_remaining := s1.timer_duration, title := "0:00:00" }
    else
      { s1 with time_elapsed := 0, title := "0:00:00" }

/-- The `start_resume` callback. -/
def start_resume (s : AppState) : AppState :=
  if s.running then s
  else { s with running := true, clockOn := true, modeSwitchEnabled := false }

/-- The `pause` callback. -/
def pause (s : AppState) : AppState :=
  if s.running then
    { s with clockOn := false, running := false, modeSwitchEnabled := true }
  else s

/-- The `reset_and_save` callback: stop the clock unconditionally, save the
elapsed duration of the active mode, then reset that mode's accumulator and
the display. -/
def reset_and_save (now : Int) (sel : Option String) (s : AppState) :
    Option AppState :=
  let s0 := { s with clockOn := false, running := false, modeSwitchEnabled := true }
  if s0.is_timer_mode then
    let elapsed_seconds := s0.timer_duration - s0.time_remaining
    (save_timer_to_json now sel (some elapsed_seconds) s0).map fun s1 =>
      { s1 with time_remaining := s1.timer_duration, title := "0:00:00" }
  else
    (save_stopwatch_to_json now sel s0).map fun s1 =>
      { s1 with time_elapsed := 0, title := "0:00:00" }

/-- The `delete_category` callback: silently a no-op when the name is not a
key; otherwise first copy the persisted data file to a backup tagged with
the current timestamp and the category name, then delete the key and
persist.  `timestamp` is the formatted `datetime.now()` string. -/
def delete_category (category_name : String) (timestamp : String) (s : AppState) :
    AppState :=
  if category_name ∈ keysOf s.data then
    let backup_filename := "data_backup_" ++ timestamp ++ "_" ++ category_name ++ ".json"
    let s1 := { s with backups := s.backups ++ [(backup_filename, s.file)] }
    save_data { s1 with data := s1.data.filter (fun p => p.1 != category_name) }
  else s

/-- The `add_category` callback.  `name` is the text dialog outcome:
`none` = cancelled; Python treats the empty string as falsy, so it is also
a silent no-op. -/
def add_category (name : Option String) (s : AppState) : AppState :=
  match name with
  | none => s
  | some n =>
    if n = "" then s
    else if n ∈ keysOf s.data then addAlert s "Category already exists."
    else save_data { s with data := s.data ++ [(n, [])] }

/-- The `get_date_time_input` dialog: the parameter is `none` when the user
cancels, otherwise the parse results of the date/time field
(`datetime.strptime`, `none` = `ValueError`) and of the minutes field
(`float(...)`, `none` = `ValueError`).  Returns the updated state (alerts)
and the accepted `(date, minutes)` pair, `none` on any rejection. -/
def get_date_time_input (resp : Option (Option Int × Option ℚ)) (s : AppState) :
    AppState × Option (Int × ℚ) :=
  match resp with
  | none => (s, none)
  | some (date_res, time_res) =>
    match date_res with
    | none =>
      (addAlert s "Invalid date/time format. Please enter in MM/DD/YY HH:MM format.",
        none)
    | some date_value =>
      match time_res with
      | none =>
        (addAlert s "Invalid time in minutes. Please enter a numeric value.", none)
      | some time_minutes =>
        if time_minutes ≤ 0 then
          (addAlert s
            "Invalid input. Please enter a positive number for time in minutes.",
            none)
        else (s, some (date_value, time_minutes))

/-- The `add_entry` (manual entry) callback: requires a non-empty store, a
selected category that exists, and a valid positive duration; only then is
the entry appended and persisted. -/
def add_entry (sel : Option String) (resp : Option (Option Int × Option ℚ))
    (s : AppState) : AppState :=
  if s.data = [] then
    addAlert s "No categories available. Please add a category first."
  else
    match sel with
    | none => s
    | some category_name =>
      if category_name ∈ keysOf s.data then
        let (s1, r) := get_date_time_input resp s
        match r with
        | none => s1
        | some (date_value, time_minutes) =>
          save_data { s1 with
            data := appendToCategory s1.data category_name
              ⟨some date_value, time_minutes⟩ }
      else
        addAlert s ("Invalid category name: " ++ category_name ++
          ". Please select a valid category.")

/-- The `change_timer_duration` callback: `none` = cancelled or empty text,
`some none` = text that is not an integer, `some (some v)` = parsed value. -/
def change_timer_duration (input : Option (Option Int)) (s : AppState) : AppState :=
  match input with
  | none => s
  | some none => addAlert s "Invalid input. Please enter a valid integer for minutes."
  | some (some v) =>
    if v ≤ 0 then addAlert s "Invalid number of minutes. Must be greater than 0."
    else
      let s1 := { s with timer_duration := v * 60 }
      let s2 := if s1.is_timer_mode then { s1 with time_remaining := s1.timer_duration }
                else s1
      addAlert s2 "Default timer changed."

/-- The `reload_data` callback: re-read `self.data` from the data file. -/
def reload_data (s : AppState) : AppState :=
  addNotification { s with data := s.file } "Reload Complete"

/-- The `show_statistics` callback: display the daily/weekly/lifetime totals
computed by `overallStats` and `categoryStats`. -/
def show_statistics (today : Int) (s : AppState) : AppState :=
  if s.data = [] then addAlert s "No categories available to show statistics."
  else
    { s with statsShown := s.statsShown ++
        [(overallStats today s.data,
          s.data.map fun p => (p.1, categoryStats today p.2))] }

/-- Concrete datastore used to instantiate theorems with hypotheses. -/
def demoCats : List (String × List Entry) :=
  [("Work", [⟨some 0, 1⟩, ⟨some (-10), 2⟩]), ("Read", [⟨none, 3⟩])]

/-- The elapsed duration that `reset_and_save` commits: the stopwatch's
accumulated seconds, or the consumed part of the timer. -/
def durationOf (s : AppState) : Int :=
  if s.is_timer_mode then s.timer_duration - s.time_remaining else s.time_elapsed

/-- A freshly constructed application state (empty store, timer mode,
90-minute default), used to instantiate theorems. -/
def initState : AppState where
  is_timer_mode := true
  timer_duration := 5400
  time_remaining := 5400
  time_elapsed := 0
  running := false
  clockOn := false
  modeSwitchEnabled := true
  title := "0:00:00"
  labels := ("Start/Resume Timer", "Pause Timer", "Reset and Save Timer")
  data := []
  file := []
  backups := []
  alerts := []
  notifications := []
  statsShown := []

/-- A state with one category, used to instantiate theorems. -/
def demoState : AppState :=
  { initState with data := [("Work", [])], file := [("Work", [])] }

/-- A running 5-second timer session, used to instantiate theorems. -/
def demoTimer5 : AppState :=
  { demoState with timer_duration := 5, time_remaining := 5, running := true,
                   clockOn := true, modeSwitchEnabled := false }

/-- The state of `demoTimer5` after four ticks. -/
def demoTimerAfter4 : AppState :=
  { demoState with timer_duration := 5, time_remaining := 1, running := true,
                   clockOn := true, modeSwitchEnabled := false,
                   title := format_time 1 }

/-- A running stopwatch session with one minute elapsed, used to
instantiate theorems. -/
def demoStopwatch : AppState :=
  { demoState with is_timer_mode := false, time_elapsed := 60, running := true,
                   clockOn := true, modeSwitchEnabled := false }

/-- One user-visible or clock-driven operation of the application, together
with the outcomes of the external dialogs it consults. -/
inductive Op where
  | tick : Int → Option String → Op
  | startResume : Op
  | pauseClock : Op
  | resetAndSave : Int → Option String → Op
  | toggleMode : Op
  | addCategory : Option String → Op
  | deleteCategory : String → String → Op
  | addEntry : Option String → Option (Option Int × Option ℚ) → Op
  | changeTimerDuration : Option (Option Int) → Op
  | reloadData : Op
  | showStatistics : Int → Op
  deriving Repr, DecidableEq

/-- Apply one operation; `none` models an uncaught Python exception
(`KeyError` on appending to a missing category). -/
def applyOp : Op → AppState → Option AppState
  | .tick now sel, s => update_time now sel s
  | .startResume, s => some (start_resume s)
  | .pauseClock, s => some (pause s)
  | .resetAndSave now sel, s => reset_and_save now sel s
  | .toggleMode, s => some (toggle_timer_mode s)
  | .addCategory n, s => some (add_category n s)
  | .deleteCategory n ts, s => some (delete_category n ts s)
  | .addEntry sel resp, s => some (add_entry sel resp s)
  | .changeTimerDuration i, s => some (change_timer_duration i s)
  | .reloadData, s => some (reload_data s)
  | .showStatistics d, s => some (show_statistics d s)

/-- Run a sequence of operations. -/
def runOps : List Op → AppState → Option AppState
  | [], s => some s
  | op :: ops, s => (applyOp op s).bind (runOps ops)

/-- The states reached along a sequence of operations all have
`running = true` (checked before each step). -/
def RunningAll : AppState → List Op → Prop
  | _, [] => True
  | s, op :: ops =>
    s.running = true ∧ ∀ s', applyOp op s = some s' → RunningAll s' ops

theorem statsStep_eq (today : Int) (acc : Stats) (e : Entry) :
    statsStep today acc e =
      ⟨acc.daily + dailyContrib today e, acc.weekly + weeklyContrib today e,
        acc.lifetime + lifetimeContrib e⟩ := by
  cases acc with
  | mk d w l =>
    cases h : e.date with
    | none => simp [statsStep, dailyContrib, weeklyContrib, lifetimeContrib, h]
    | some ed =>
      simp only [statsStep, dailyContrib, weeklyContrib, lifetimeContrib, h]
      by_cases h1 : ed = today <;> by_cases h2 : today - 7 ≤ ed ∧ ed ≤ today
      · simp only [if_pos h1, if_pos h2]
      · simp only [if_pos h1, if_neg h2, add_zero]
      · simp only [if_neg h1, if_pos h2, add_zero]
      · simp only [if_neg h1, if_neg h2, add_zero]

theorem foldl_statsStep_eq (today : Int) (entries : List Entry) (acc : Stats) :
    entries.foldl (statsStep today) acc =
      ⟨acc.daily + (entries.map (dailyContrib today)).sum,
        acc.weekly + (entries.map (weeklyContrib today)).sum,
        acc.lifetime + (entries.map lifetimeContrib).sum⟩ := by
  induction entries generalizing acc with
  | nil => simp
  | cons e rest ih =>
    rw [List.foldl_cons, ih, statsStep_eq]
    simp [add_assoc]

/-- The three fields of `categoryStats` are plain sums of per-entry
contributions. -/
theorem categoryStats_eq (today : Int) (entries : List Entry) :
    categoryStats today entries =
      ⟨(entries.map (dailyContrib today)).sum,
        (entries.map (weeklyContrib today)).sum,
        (entries.map lifetimeContrib).sum⟩ := by
  rw [categoryStats, foldl_statsStep_eq]
  simp

theorem sumTimes_cons (e : Entry) (entries : List Entry) :
    sumTimes (e :: entries) = e.time + sumTimes entries := by
  simp [sumTimes]

theorem map_sum_eq_sumTimes_filter (f : Entry → ℚ) (p : Entry → Bool)
    (hf : ∀ e, f e = if p e then e.time else 0) (entries : List Entry) :
    (entries.map f).sum = sumTimes (entries.filter p) := by
  induction entries with
  | nil => simp [sumTimes]
  | cons e rest ih =>
    simp only [List.map_cons, List.sum_cons, List.filter_cons, hf e]
    cases hp : p e
    · simp [hp, ih]
    · simp [hp, sumTimes_cons, ih]

theorem weeklyContrib_ite (today : Int) (e : Entry) :
    weeklyContrib today e = if inCodeWeeklyWindow today e then e.time else 0 := by
  cases h : e.date with
  | none => simp [weeklyContrib, inCodeWeeklyWindow, h]
  | some d =>
    simp only [weeklyContrib, inCodeWeeklyWindow, h]
    by_cases hw : today - 7 ≤ d ∧ d ≤ today
    · rw [if_pos hw, if_pos (by simpa using hw)]
    · rw [if_neg hw, if_neg (by simpa using hw)]

theorem weeklyContrib_filter (today : Int) (entries : List Entry) :
    (entries.map (weeklyContrib today)).sum =
      sumTimes (entries.filter (inCodeWeeklyWindow today)) :=
  map_sum_eq_sumTimes_filter _ _ (weeklyContrib_ite today) entries

theorem map_sum_filter_eq (f : Entry → ℚ) (p : Entry → Bool)
    (hf : ∀ e, p e = false → f e = 0) (l : List Entry) :
    ((l.filter p).map f).sum = (l.map f).sum := by
  induction l with
  | nil => simp
  | cons e rest ih =>
    simp only [List.filter_cons]
    cases hp : p e
    · simp only [Bool.false_eq_true, if_false, ih, List.map_cons, List.sum_cons,
        hf e hp, zero_add]
    · simp [ih]

theorem dailyContrib_le_weeklyContrib (today : Int) (e : Entry) (ht : 0 ≤ e.time) :
    dailyContrib today e ≤ weeklyContrib today e := by
  cases h : e.date with
  | none => simp [dailyContrib, weeklyContrib, h]
  | some d =>
    simp only [dailyContrib, weeklyContrib, h]
    by_cases h1 : d = today
    · have hw : today - 7 ≤ d ∧ d ≤ today := by subst h1; constructor <;> omega
      rw [if_pos h1, if_pos hw]
    · rw [if_neg h1]
      by_cases h2 : today - 7 ≤ d ∧ d ≤ today
      · rw [if_pos h2]; exact ht
      · rw [if_neg h2]

theorem weeklyContrib_le_lifetimeContrib (today : Int) (e : Entry) (ht : 0 ≤ e.time) :
    weeklyContrib today e ≤ lifetimeContrib e := by
  cases h : e.date with
  | none => simp [weeklyContrib, lifetimeContrib, h]
  | some d =>
    simp only [weeklyContrib, lifetimeContrib, h]
    by_cases h2 : today - 7 ≤ d ∧ d ≤ today
    · rw [if_pos h2]
    · rw [if_neg h2]; exact ht

theorem overallStats_foldl (today : Int) (cats : List (String × List Entry))
    (acc : Stats) :
    cats.foldl (fun a p => addStats a (categoryStats today p.2)) acc =
      ⟨acc.daily + (cats.map (fun p => (categoryStats today p.2).daily)).sum,
        acc.weekly + (cats.map (fun p => (categoryStats today p.2).weekly)).sum,
        acc.lifetime + (cats.map (fun p => (categoryStats today p.2).lifetime)).sum⟩ := by
  induction cats generalizing acc with
  | nil => simp
  | cons c rest ih =>
    rw [List.foldl_cons, ih]
    simp [addStats, add_assoc]

theorem overallStats_eq (today : Int) (cats : List (String × List Entry)) :
    overallStats today cats =
      ⟨(cats.map (fun p => (categoryStats today p.2).daily)).sum,
        (cats.map (fun p => (categoryStats today p.2).weekly)).sum,
        (cats.map (fun p => (categoryStats today p.2).lifetime)).sum⟩ := by
  rw [overallStats, overallStats_foldl]
  simp

/-- C1 counterexample: with `today = 100` and a single entry whose calendar
date is `93 = today - 7` (exactly 7 days before now), the code counts the
entry toward the weekly total (`week_ago <= entry_date <= today` with
`week_ago = today - timedelta(days=7)`), while the spec's window
`[now.date - 6 days, now.date]` excludes it.  So the claim's "exactly when
its date lies in the inclusive window [now.date - 6 days, now.date]" is
false of the code. -/
theorem claim_c1_counterexample :
    (categoryStats 100 [⟨some 93, (1 : ℚ)⟩]).weekly = 1 ∧
      specWeeklyTotal 100 [⟨some 93, (1 : ℚ)⟩] = 0 ∧
      (categoryStats 100 [⟨some 93, (1 : ℚ)⟩]).weekly ≠
        specWeeklyTotal 100 [⟨some 93, (1 : ℚ)⟩] := by
  have hw : weeklyContrib 100 ⟨some 93, (1 : ℚ)⟩ = 1 := by
    have hc : (100 : Int) - 7 ≤ 93 ∧ (93 : Int) ≤ 100 := by constructor <;> omega
    simp only [weeklyContrib]
    rw [if_pos hc]
  have h1 : (categoryStats 100 [⟨some 93, (1 : ℚ)⟩]).weekly = 1 := by
    rw [categoryStats_eq]
    simp [hw]
  have h2 : specWeeklyTotal 100 [⟨some 93, (1 : ℚ)⟩] = 0 := by
    have hs : inSpecWeeklyWindow 100 ⟨some 93, (1 : ℚ)⟩ = false := by
      simp only [inSpecWeeklyWindow]
      rw [decide_eq_false_iff_not]
      omega
    simp [specWeeklyTotal, hs, sumTimes]
  exact ⟨h1, h2, by rw [h1, h2]; norm_num⟩

/-- C1 (amended): `computeStatistics` counts an entry toward the weekly
total exactly when its timestamp's calendar date lies in the inclusive
window `[now.date - 7 days, now.date]` (eight calendar days); in particular
an entry dated exactly 7 days before now is included in the weekly total,
and an entry dated 10 days ago contributes to lifetime but not daily or
weekly. -/
theorem claim_c1_amended (today : Int) (entries : List Entry) (t1 t2 : ℚ) :
    (categoryStats today entries).weekly =
        sumTimes (entries.filter (inCodeWeeklyWindow today)) ∧
      (∀ e : Entry, inCodeWeeklyWindow today e = true ↔
        ∃ d, e.date = some d ∧ today - 7 ≤ d ∧ d ≤ today) ∧
      (categoryStats today [⟨some (today - 7), t1⟩]).weekly = t1 ∧
      categoryStats today [⟨some today, t1⟩, ⟨some (today - 10), t2⟩] =
        ⟨t1, t1, t1 + t2⟩ := by
  refine ⟨?_, ?_, ?_, ?_⟩
  · rw [categoryStats_eq, weeklyContrib_filter]
  · intro e
    cases h : e.date with
    | none => simp [inCodeWeeklyWindow, h]
    | some d => simp [inCodeWeeklyWindow, h]
  · rw [categoryStats_eq]
    simp only [List.map_cons, List.map_nil, List.sum_cons, List.sum_nil, add_zero]
    show (if today - 7 ≤ today - 7 ∧ today - 7 ≤ today then t1 else 0) = t1
    have hc : today - 7 ≤ today - 7 ∧ today - 7 ≤ today := by constructor <;> omega
    rw [if_pos hc]
  · rw [categoryStats_eq]
    simp only [List.map_cons, List.map_nil, List.sum_cons, List.sum_nil, add_zero]
    have hd1 : dailyContrib today ⟨some today, t1⟩ = t1 := by
      simp [dailyContrib]
    have hd2 : dailyContrib today ⟨some (today - 10), t2⟩ = 0 := by
      have hc : ¬ (today - 10 = today) := by omega
      simp only [dailyContrib]
      rw [if_neg hc]
    have hw1 : weeklyContrib today ⟨some today, t1⟩ = t1 := by
      have hc : today - 7 ≤ today ∧ today ≤ today := by constructor <;> omega
      simp only [weeklyContrib]
      rw [if_pos hc]
    have hw2 : weeklyContrib today ⟨some (today - 10), t2⟩ = 0 := by
      have hc : ¬ (today - 7 ≤ today - 10 ∧ today - 10 ≤ today) := by omega
      simp only [weeklyContrib]
      rw [if_neg hc]
    have hl1 : lifetimeContrib ⟨some today, t1⟩ = t1 := rfl
    have hl2 : lifetimeContrib ⟨some (today - 10), t2⟩ = t2 := rfl
    rw [hd1, hd2, hw1, hw2, hl1, hl2]
    simp

/-- C8: aggregation is total in the presence of malformed timestamps: an
entry whose timestamp does not parse (the `except ValueError: continue`
path) contributes to none of the daily, weekly, or lifetime totals, and the
statistics equal those of the well-formed entries alone. -/
theorem claim_c8 (today : Int) (es1 es2 : List Entry) (t : ℚ) :
    categoryStats today (es1 ++ ⟨none, t⟩ :: es2) = categoryStats today (es1 ++ es2) ∧
      categoryStats today (es1 ++ es2) =
        categoryStats today ((es1 ++ es2).filter (fun e => e.date.isSome)) := by
  constructor
  · rw [categoryStats_eq, categoryStats_eq]
    simp [dailyContrib, weeklyContrib, lifetimeContrib]
  · rw [categoryStats_eq, categoryStats_eq]
    have hd : ∀ e : Entry, e.date.isSome = false → dailyContrib today e = 0 := by
      intro e he
      cases h : e.date with
      | none => simp [dailyContrib, h]
      | some d => rw [h] at he; simp at he
    have hw : ∀ e : Entry, e.date.isSome = false → weeklyContrib today e = 0 := by
      intro e he
      cases h : e.date with
      | none => simp [weeklyContrib, h]
      | some d => rw [h] at he; simp at he
    have hl : ∀ e : Entry, e.date.isSome = false → lifetimeContrib e = 0 := by
      intro e he
      cases h : e.date with
      | none => simp [lifetimeContrib, h]
      | some d => rw [h] at he; simp at he
    rw [map_sum_filter_eq _ _ hd, map_sum_filter_eq _ _ hw, map_sum_filter_eq _ _ hl]

/-- C10: when every entry has non-negative minutes, daily ≤ weekly ≤
lifetime, both per category and for the overall totals: entries counted in
the daily window are also counted in the weekly window, and every counted
entry is counted in lifetime. -/
theorem claim_c10 (today : Int) (cats : List (String × List Entry))
    (h : ∀ p ∈ cats, ∀ e ∈ p.2, 0 ≤ e.time) :
    (∀ p ∈ cats,
        (categoryStats today p.2).daily ≤ (categoryStats today p.2).weekly ∧
          (categoryStats today p.2).weekly ≤ (categoryStats today p.2).lifetime) ∧
      (overallStats today cats).daily ≤ (overallStats today cats).weekly ∧
      (overallStats today cats).weekly ≤ (overallStats today cats).lifetime := by
  have hcat : ∀ p ∈ cats,
      (categoryStats today p.2).daily ≤ (categoryStats today p.2).weekly ∧
        (categoryStats today p.2).weekly ≤ (categoryStats today p.2).lifetime := by
    intro p hp
    rw [categoryStats_eq]
    constructor
    · exact List.sum_le_sum fun e he =>
        dailyContrib_le_weeklyContrib today e (h p hp e he)
    · exact List.sum_le_sum fun e he =>
        weeklyContrib_le_lifetimeContrib today e (h p hp e he)
  refine ⟨hcat, ?_, ?_⟩
  · rw [overallStats_eq]
    exact List.sum_le_sum fun p hp => (hcat p hp).1
  · rw [overallStats_eq]
    exact List.sum_le_sum fun p hp => (hcat p hp).2

/-- Witness instantiating C10 at a concrete store and date. -/
theorem claim_c10_witness :
    (overallStats 0 demoCats).daily ≤ (overallStats 0 demoCats).weekly :=
  (claim_c10 0 demoCats (by decide)).2.1

theorem pad2_length_nat : ∀ m : Nat, m < 100 → (pad2 (m : Int)).length = 2 := by
  decide

theorem pad2_length (n : Int) (h0 : 0 ≤ n) (h1 : n < 100) : (pad2 n).length = 2 := by
  have hm : ((n.toNat : Int)) = n := by omega
  have h := pad2_length_nat n.toNat (by omega)
  rwa [hm] at h

/-- C7: for every non-negative integer number of seconds, `format_time`
produces `H:MM:SS`: the hour field is the plain decimal representation of
`s // 3600` with no padding, and the minute and second fields are
zero-padded to exactly two characters; `format_time 3661 = "1:01:01"`. -/
theorem claim_c7 (s : Int) (_hs : 0 ≤ s) :
    format_time s =
        (s / 3600).repr ++ ":" ++ pad2 ((s % 3600) / 60) ++ ":" ++
          pad2 (s % 60) ∧
      (pad2 ((s % 3600) / 60)).length = 2 ∧
      (pad2 (s % 60)).length = 2 ∧
      format_time 3661 = "1:01:01" := by
  refine ⟨rfl, ?_, ?_, by decide⟩
  · have h1 : 0 ≤ (s % 3600) / 60 := by omega
    have h2 : (s % 3600) / 60 < 100 := by omega
    exact pad2_length _ h1 h2
  · have h1 : 0 ≤ s % 60 := by omega
    have h2 : s % 60 < 100 := by omega
    exact pad2_length _ h1 h2

/-- Witness instantiating C7 at 3661 seconds. -/
theorem claim_c7_witness : (pad2 (((3661 : Int) % 3600) / 60)).length = 2 :=
  (claim_c7 3661 (by decide)).2.1

theorem mem_keysOf_ne_nil {cats : List (String × List Entry)} {n : String}
    (h : n ∈ keysOf cats) : cats ≠ [] := by
  cases cats with
  | nil => simp [keysOf] at h
  | cons p rest => simp

theorem lookupCat_append_of_not_mem {cats : List (String × List Entry)} {n : String}
    (h : n ∉ keysOf cats) (l2 : List (String × List Entry)) :
    lookupCat (cats ++ l2) n = lookupCat l2 n := by
  induction cats with
  | nil => simp
  | cons p rest ih =>
    simp only [keysOf, List.map_cons, List.mem_cons, not_or] at h
    simp only [List.cons_append, lookupCat]
    rw [if_neg (show ¬ p.1 = n from fun hp => h.1 hp.symm)]
    exact ih (by simp [keysOf, h.2])

theorem lookupCat_appendToCategory (cats : List (String × List Entry)) (n : String)
    (e : Entry) :
    lookupCat (appendToCategory cats n e) n =
      (lookupCat cats n).map (fun es => es ++ [e]) := by
  induction cats with
  | nil => simp [appendToCategory, lookupCat]
  | cons p rest ih =>
    simp only [appendToCategory, List.map_cons]
    by_cases hp : p.1 = n
    · simp [lookupCat, hp]
    · simpa [lookupCat, hp, appendToCategory] using ih

/-- C4: `delete_category` on an absent name is a silent no-op; on a present
name it records a backup whose content is exactly the pre-deletion
persisted store (the data file, which `shutil.copy` duplicates), tagged
with the timestamp and the category name, and only then removes the key
and persists the reduced store. -/
theorem claim_c4 (s : AppState) (n timestamp : String) :
    (n ∉ keysOf s.data → delete_category n timestamp s = s) ∧
      (n ∈ keysOf s.data →
        (delete_category n timestamp s).backups =
            s.backups ++
              [("data_backup_" ++ timestamp ++ "_" ++ n ++ ".json", s.file)] ∧
          (delete_category n timestamp s).data =
            s.data.filter (fun p => p.1 != n) ∧
          (delete_category n timestamp s).file =
            (delete_category n timestamp s).data ∧
          (delete_category n timestamp s).alerts = s.alerts ∧
          (delete_category n timestamp s).notifications = s.notifications) := by
  constructor
  · intro h
    simp only [delete_category, if_neg h]
  · intro h
    simp [delete_category, if_pos h, save_data]

/-- Witness instantiating C4: deleting the existing category of `demoState`
records a backup of the persisted store. -/
theorem claim_c4_witness :
    (delete_category "Work" "2026-10-12_00-00-00" demoState).backups =
      demoState.backups ++
        [("data_backup_" ++ "2026-10-12_00-00-00" ++ "_" ++ "Work" ++ ".json",
          demoState.file)] :=
  ((claim_c4 demoState "Work" "2026-10-12_00-00-00").2 (by decide)).1

/-- C5: manual entry rejects non-positive minutes and unknown categories
with a validation alert, leaving both the in-memory store and the persisted
file unchanged; a positive duration for an existing category is appended
immediately and persisted. -/
theorem claim_c5 (s : AppState) (c : String) (d : Int) (t : ℚ)
    (resp : Option (Option Int × Option ℚ)) :
    (c ∈ keysOf s.data → t ≤ 0 →
        (add_entry (some c) (some (some d, some t)) s).data = s.data ∧
          (add_entry (some c) (some (some d, some t)) s).file = s.file ∧
          (add_entry (some c) (some (some d, some t)) s).alerts =
            s.alerts ++
              ["Invalid input. Please enter a positive number for time in minutes."]) ∧
      (c ∉ keysOf s.data → s.data ≠ [] →
        (add_entry (some c) resp s).data = s.data ∧
          (add_entry (some c) resp s).file = s.file ∧
          (add_entry (some c) resp s).alerts =
            s.alerts ++
              ["Invalid category name: " ++ c ++ ". Please select a valid category."]) ∧
      (c ∈ keysOf s.data → 0 < t →
        (add_entry (some c) (some (some d, some t)) s).data =
            appendToCategory s.data c ⟨some d, t⟩ ∧
          (add_entry (some c) (some (some d, some t)) s).file =
            appendToCategory s.data c ⟨some d, t⟩ ∧
          (add_entry (some c) (some (some d, some t)) s).alerts = s.alerts) := by
  refine ⟨?_, ?_, ?_⟩
  · intro hc ht
    have hd := mem_keysOf_ne_nil hc
    simp [add_entry, if_neg hd, if_pos hc, get_date_time_input, if_pos ht, addAlert]
  · intro hc hd
    simp [add_entry, if_neg hd, if_neg hc, addAlert]
  · intro hc ht
    have hd := mem_keysOf_ne_nil hc
    have ht2 : ¬ t ≤ 0 := not_le.mpr ht
    simp [add_entry, if_neg hd, if_pos hc, get_date_time_input, if_neg ht2, save_data]

/-- Witness instantiating C5: a zero-duration manual entry against the
existing category of `demoState` leaves the store unchanged. -/
theorem claim_c5_witness :
    (add_entry (some "Work") (some (some 0, some 0)) demoState).data =
      demoState.data :=
  ((claim_c5 demoState "Work" 0 0 none).1 (by decide) (by decide)).1

/-- C6 counterexample: for the category name `""` (Python treats the empty
string as falsy), `addCategory` twice is a silent no-op both times: the
second call raises no "already exists" alert and the store does not map
`""` to an entry list, contradicting the claim's universal quantification
over category names. -/
theorem claim_c6_counterexample :
    add_category (some "") (add_category (some "") initState) = initState ∧
      (add_category (some "") (add_category (some "") initState)).alerts = [] ∧
      lookupCat (add_category (some "") (add_category (some "") initState)).data ""
        = none := by
  exact ⟨rfl, rfl, rfl⟩

/-- C6 (amended): for every non-empty category name `n` not already in the
store, the first `addCategory(n)` inserts an empty entry list and persists,
the second call is rejected with the "Category already exists." alert and
changes nothing, and after both calls the store maps `n` to exactly one,
empty-at-creation entry list. -/
theorem claim_c6_amended (s : AppState) (n : String) (hne : n ≠ "")
    (hmem : n ∉ keysOf s.data) :
    (add_category (some n) s).data = s.data ++ [(n, [])] ∧
      (add_category (some n) s).file = s.data ++ [(n, [])] ∧
      (add_category (some n) (add_category (some n) s)).data =
        (add_category (some n) s).data ∧
      (add_category (some n) (add_category (some n) s)).file =
        (add_category (some n) s).file ∧
      (add_category (some n) (add_category (some n) s)).alerts =
        (add_category (some n) s).alerts ++ ["Category already exists."] ∧
      lookupCat (add_category (some n) (add_category (some n) s)).data n = some [] ∧
      (keysOf (add_category (some n) (add_category (some n) s)).data).count n = 1 := by
  have h1 : add_category (some n) s =
      { s with data := s.data ++ [(n, [])], file := s.data ++ [(n, [])] } := by
    simp only [add_category, if_neg hne, if_neg hmem]
    rfl
  have hmem2 : n ∈ keysOf
      ({ s with data := s.data ++ [(n, [])],
                file := s.data ++ [(n, [])] } : AppState).data := by
    simp [keysOf]
  have h2 : add_category (some n) (add_category (some n) s) =
      { s with data := s.data ++ [(n, [])], file := s.data ++ [(n, [])],
               alerts := s.alerts ++ ["Category already exists."] } := by
    rw [h1]
    simp only [add_category, if_neg hne]
    rw [if_pos hmem2]
    rfl
  refine ⟨by rw [h1], by rw [h1], ?_, ?_, ?_, ?_, ?_⟩
  · rw [h2, h1]
  · rw [h2, h1]
  · rw [h2, h1]
  · rw [h2]
    show lookupCat (s.data ++ [(n, [])]) n = some []
    rw [lookupCat_append_of_not_mem hmem]
    simp [lookupCat]
  · rw [h2]
    show (keysOf (s.data ++ [(n, [])])).count n = 1
    simp only [keysOf, List.map_append, List.map_cons, List.map_nil]
    rw [List.count_append]
    have h0 : (s.data.map Prod.fst).count n = 0 :=
      List.count_eq_zero.mpr (by simpa [keysOf] using hmem)
    rw [h0]
    simp

/-- Witness instantiating the amended C6 at a fresh store. -/
theorem claim_c6_witness :
    (add_category (some "Work") initState).data = initState.data ++ [("Work", [])] :=
  (claim_c6_amended initState "Work" (by decide) (by decide)).1

theorem save_timer_to_json_selected (now : Int) (cat : String) (el : Option Int)
    (s : AppState) (hcat : cat ∈ keysOf s.data) :
    save_timer_to_json now (some cat) el s =
      some (save_data { s with data := (appendToCategory s.data cat
        ⟨some now,
          pyRound2 (((el.getD (s.timer_duration - s.time_remaining) : Int) : ℚ) / 60)⟩) }) := by
  have hd : s.data ≠ [] := mem_keysOf_ne_nil hcat
  simp only [save_timer_to_json, if_neg hd, if_pos hcat]

theorem save_stopwatch_to_json_selected (now : Int) (cat : String)
    (s : AppState) (hcat : cat ∈ keysOf s.data) :
    save_stopwatch_to_json now (some cat) s =
      some (save_data { s with data := (appendToCategory s.data cat
        ⟨some now, pyRound2 ((s.time_elapsed : ℚ) / 60)⟩) }) := by
  have hd : s.data ≠ [] := mem_keysOf_ne_nil hcat
  simp only [save_stopwatch_to_json, if_neg hd, if_pos hcat]

/-- C2: in timer mode, a tick that makes `time_remaining` reach zero, with
no user-initiated operation, stops the clock, sets `running := false`,
commits an entry of `round(timer_duration / 60, 2)` minutes to the selected
category, and resets `time_remaining` to the configured duration. -/
theorem claim_c2 (s : AppState) (now : Int) (cat : String)
    (hm : s.is_timer_mode = true) (_hr : s.running = true)
    (ht : s.time_remaining = 1) (hcat : cat ∈ keysOf s.data) :
    ∃ s', update_time now (some cat) s = some s' ∧
      s'.running = false ∧ s'.clockOn = false ∧
      s'.timer_duration = s.timer_duration ∧
      s'.time_remaining = s.timer_duration ∧
      s'.title = "0:00:00" ∧
      s'.data = appendToCategory s.data cat
        ⟨some now, pyRound2 ((s.timer_duration : ℚ) / 60)⟩ ∧
      s'.file = s'.data ∧
      lookupCat s'.data cat = (lookupCat s.data cat).map
        (fun es => es ++ [⟨some now, pyRound2 ((s.timer_duration : ℚ) / 60)⟩]) := by
  have hd : s.data ≠ [] := mem_keysOf_ne_nil hcat
  refine ⟨{ s with
              time_remaining := s.timer_duration, running := false,
              clockOn := false, modeSwitchEnabled := true, title := "0:00:00",
              data := (appendToCategory s.data cat
                ⟨some now, pyRound2 ((s.timer_duration : ℚ) / 60)⟩),
              file := (appendToCategory s.data cat
                ⟨some now, pyRound2 ((s.timer_duration : ℚ) / 60)⟩) },
    ?_, rfl, rfl, rfl, rfl, rfl, rfl, rfl, ?_⟩
  · have hcond : s.time_remaining - 1 ≤ 0 := by omega
    simp only [update_time, hm, if_true, if_pos hcond]
    rw [save_timer_to_json_selected now cat none
      { s with is_timer_mode := true, time_remaining := 0, running := false,
               clockOn := false, title := "0:00:00" } hcat]
    simp [save_data, sub_zero]
  · exact lookupCat_appendToCategory s.data cat _

/-- Witness instantiating C2: after four ticks of a running 5-second timer
the state is `demoTimerAfter4`; the fifth tick auto-commits and resets. -/
theorem claim_c2_witness :
    runOps [Op.tick 0 none, Op.tick 0 none, Op.tick 0 none, Op.tick 0 none]
        demoTimer5 = some demoTimerAfter4 ∧
      (update_time 0 (some "Work") demoTimerAfter4).map
        (fun t => (t.running, t.time_remaining)) = some (false, 5) := by
  refine ⟨rfl, ?_⟩
  obtain ⟨s', heq, hrun, hclock, hdur, hrem, hrest⟩ :=
    claim_c2 demoTimerAfter4 0 "Work" rfl rfl rfl (by decide)
  rw [heq]
  show some (s'.running, s'.time_remaining) = some (false, 5)
  rw [hrun, hrem]
  rfl

/-- C3 counterexample: the claim's "notifies success" is false of the code.
In a running stopwatch session with one minute elapsed, `reset_and_save`
with the category `"Work"` selected does append the entry, but the code
issues no `rumps.notification` on the success path: the notification list
stays empty. -/
theorem claim_c3_counterexample :
    (reset_and_save 0 (some "Work") demoStopwatch).map AppState.notifications =
        some [] ∧
      (reset_and_save 0 (some "Work") demoStopwatch).map AppState.data =
        some (appendToCategory demoStopwatch.data "Work"
          ⟨some 0, pyRound2 ((demoStopwatch.time_elapsed : ℚ) / 60)⟩) := by
  constructor <;> rfl

/-- C3 (amended): `resetAndSave`, called in any state whose category dialog
outcome is a cancellation or an existing category, stops the clock and sets
`running := false`; the committed duration is `time_elapsed` in stopwatch
mode and `timer_duration - time_remaining` in timer mode; if the store is
non-empty and a category is selected, a TimeEntry with `timestamp = now`
and `minutes = round(duration/60, 2)` is appended and persisted (no success
notification is emitted); and in every outcome the accumulator is reset to
zero (stopwatch) or the full configured duration (timer) and the display to
`0:00:00`. -/
theorem claim_c3_amended (now : Int) (sel : Option String) (s : AppState)
    (hsel : sel = none ∨ ∃ c, sel = some c ∧ c ∈ keysOf s.data) :
    (reset_and_save now sel s).map AppState.running = some false ∧
      (reset_and_save now sel s).map AppState.clockOn = some false ∧
      (reset_and_save now sel s).map AppState.timer_duration =
        some s.timer_duration ∧
      (s.is_timer_mode = true →
        (reset_and_save now sel s).map AppState.time_remaining =
          some s.timer_duration) ∧
      (s.is_timer_mode = false →
        (reset_and_save now sel s).map AppState.time_elapsed = some 0) ∧
      (reset_and_save now sel s).map AppState.title = some "0:00:00" ∧
      (s.data = [] →
        (reset_and_save now sel s).map AppState.data = some s.data ∧
          (reset_and_save now sel s).map AppState.file = some s.file) ∧
      (sel = none →
        (reset_and_save now sel s).map AppState.data = some s.data ∧
          (reset_and_save now sel s).map AppState.file = some s.file) ∧
      (∀ c, sel = some c → s.data ≠ [] →
        (reset_and_save now sel s).map AppState.data =
            some (appendToCategory s.data c
              ⟨some now, pyRound2 ((durationOf s : ℚ) / 60)⟩) ∧
          (reset_and_save now sel s).map AppState.file =
            some (appendToCategory s.data c
              ⟨some now, pyRound2 ((durationOf s : ℚ) / 60)⟩)) ∧
      (reset_and_save now sel s).map AppState.notifications =
        some s.notifications := by
  rcases hsel with hnone | ⟨c, hc, hcmem⟩
  · subst hnone
    cases hm : s.is_timer_mode
    · by_cases hdata : s.data = []
      · simp [reset_and_save, save_stopwatch_to_json, hm, hdata, addAlert,
          durationOf, save_data]
      · simp [reset_and_save, save_stopwatch_to_json, hm, hdata, addAlert,
          durationOf, save_data]
    · by_cases hdata : s.data = []
      · simp [reset_and_save, save_timer_to_json, hm, hdata, addAlert,
          durationOf, save_data]
      · simp [reset_and_save, save_timer_to_json, hm, hdata, addAlert,
          durationOf, save_data]
  · subst hc
    have hdata : s.data ≠ [] := mem_keysOf_ne_nil hcmem
    cases hm : s.is_timer_mode
    · simp [reset_and_save, save_stopwatch_to_json, hm, hdata, hcmem, addAlert,
        durationOf, save_data]
    · simp [reset_and_save, save_timer_to_json, hm, hdata, hcmem, addAlert,
        durationOf, save_data]

/-- Witness instantiating the amended C3 in a running stopwatch session. -/
theorem claim_c3_witness :
    (reset_and_save 0 (some "Work") demoStopwatch).map AppState.running =
      some false :=
  (claim_c3_amended 0 (some "Work") demoStopwatch
    (Or.inr ⟨"Work", rfl, by decide⟩)).1

theorem toggle_timer_mode_of_running (s : AppState) (hr : s.running = true) :
    toggle_timer_mode s = s := by
  simp [toggle_timer_mode, hr]

theorem save_timer_to_json_mode (now : Int) (sel : Option String) (el : Option Int)
    (s s' : AppState) (h : save_timer_to_json now sel el s = some s') :
    s'.is_timer_mode = s.is_timer_mode := by
  by_cases hd : s.data = []
  · simp only [save_timer_to_json, if_pos hd, Option.some.injEq] at h
    subst h; rfl
  · cases sel with
    | none =>
      simp only [save_timer_to_json, if_neg hd, Option.some.injEq] at h
      subst h; rfl
    | some c =>
      by_cases hc : c ∈ keysOf s.data
      · simp only [save_timer_to_json, if_neg hd, if_pos hc, Option.some.injEq] at h
        subst h; rfl
      · simp only [save_timer_to_json, if_neg hd, if_neg hc] at h
        exact absurd h (by simp)

theorem save_stopwatch_to_json_mode (now : Int) (sel : Option String)
    (s s' : AppState) (h : save_stopwatch_to_json now sel s = some s') :
    s'.is_timer_mode = s.is_timer_mode := by
  by_cases hd : s.data = []
  · simp only [save_stopwatch_to_json, if_pos hd, Option.some.injEq] at h
    subst h; rfl
  · cases sel with
    | none =>
      simp only [save_stopwatch_to_json, if_neg hd, Option.some.injEq] at h
      subst h; rfl
    | some c =>
      by_cases hc : c ∈ keysOf s.data
      · simp only [save_stopwatch_to_json, if_neg hd, if_pos hc,
          Option.some.injEq] at h
        subst h; rfl
      · simp only [save_stopwatch_to_json, if_neg hd, if_neg hc] at h
        exact absurd h (by simp)

theorem update_time_mode (now : Int) (sel : Option String) (s s' : AppState)
    (h : update_time now sel s = some s') : s'.is_timer_mode = s.is_timer_mode := by
  cases hm : s.is_timer_mode
  · simp only [update_time, hm, Bool.false_eq_true, if_false, Option.some.injEq] at h
    subst h; rfl
  · simp only [update_time, hm, if_true] at h
    by_cases hr : s.time_remaining - 1 ≤ 0
    · rw [if_pos hr] at h
      rcases Option.map_eq_some'.mp h with ⟨s2, h2, hs⟩
      subst hs
      exact (save_timer_to_json_mode _ _ _ _ _ h2).trans rfl
    · rw [if_neg hr] at h
      simp only [Option.some.injEq] at h
      subst h; rfl

theorem reset_and_save_mode (now : Int) (sel : Option String) (s s' : AppState)
    (h : reset_and_save now sel s = some s') : s'.is_timer_mode = s.is_timer_mode := by
  cases hm : s.is_timer_mode
  · simp only [reset_and_save, hm, Bool.false_eq_true, if_false] at h
    rcases Option.map_eq_some'.mp h with ⟨s2, h2, hs⟩
    subst hs
    exact (save_stopwatch_to_json_mode _ _ _ _ h2).trans rfl
  · simp only [reset_and_save, hm, if_true] at h
    rcases Option.map_eq_some'.mp h with ⟨s2, h2, hs⟩
    subst hs
    exact (save_timer_to_json_mode _ _ _ _ _ h2).trans rfl

theorem add_entry_mode (sel : Option String) (resp : Option (Option Int × Option ℚ))
    (s : AppState) : (add_entry sel resp s).is_timer_mode = s.is_timer_mode := by
  by_cases hd : s.data = []
  · simp [add_entry, hd, addAlert]
  · cases sel with
    | none => simp [add_entry, hd]
    | some c =>
      by_cases hc : c ∈ keysOf s.data
      · simp only [add_entry, if_neg hd, if_pos hc]
        cases resp with
        | none => simp [get_date_time_input]
        | some dt =>
          rcases dt with ⟨dres, tres⟩
          cases dres with
          | none => simp [get_date_time_input, addAlert]
          | some dv =>
            cases tres with
            | none => simp [get_date_time_input, addAlert]
            | some tv =>
              by_cases ht : tv ≤ 0
              · simp [get_date_time_input, ht, addAlert]
              · simp [get_date_time_input, ht, save_data]
      · simp [add_entry, hd, hc, addAlert]

theorem add_category_mode (name : Option String) (s : AppState) :
    (add_category name s).is_timer_mode = s.is_timer_mode := by
  cases name with
  | none => rfl
  | some n =>
    by_cases hne : n = ""
    · simp [add_category, hne]
    · by_cases hm : n ∈ keysOf s.data
      · simp [add_category, hne, hm, addAlert]
      · simp [add_category, hne, hm, save_data]

theorem delete_category_mode (n ts : String) (s : AppState) :
    (delete_category n ts s).is_timer_mode = s.is_timer_mode := by
  by_cases hm : n ∈ keysOf s.data
  · simp [delete_category, hm, save_data]
  · simp [delete_category, hm]

theorem change_timer_duration_mode (input : Option (Option Int)) (s : AppState) :
    (change_timer_duration input s).is_timer_mode = s.is_timer_mode := by
  rcases input with _ | _ | v
  · rfl
  · simp [change_timer_duration, addAlert]
  · by_cases hv : v ≤ 0
    · simp [change_timer_duration, hv, addAlert]
    · cases hm : s.is_timer_mode <;>
        simp [change_timer_duration, hv, hm, addAlert]

theorem applyOp_mode (op : Op) (s s' : AppState) (hop : op ≠ Op.toggleMode)
    (h : applyOp op s = some s') : s'.is_timer_mode = s.is_timer_mode := by
  cases op with
  | tick now sel => exact update_time_mode now sel s s' h
  | startResume =>
    simp only [applyOp, Option.some.injEq] at h
    subst h
    by_cases hr : s.running = true <;> simp [start_resume, hr]
  | pauseClock =>
    simp only [applyOp, Option.some.injEq] at h
    subst h
    by_cases hr : s.running = true <;> simp [pause, hr]
  | resetAndSave now sel => exact reset_and_save_mode now sel s s' h
  | toggleMode => exact absurd rfl hop
  | addCategory n =>
    simp only [applyOp, Option.some.injEq] at h
    subst h
    exact add_category_mode n s
  | deleteCategory n ts =>
    simp only [applyOp, Option.some.injEq] at h
    subst h
    exact delete_category_mode n ts s
  | addEntry sel resp =>
    simp only [applyOp, Option.some.injEq] at h
    subst h
    exact add_entry_mode sel resp s
  | changeTimerDuration i =>
    simp only [applyOp, Option.some.injEq] at h
    subst h
    exact change_timer_duration_mode i s
  | reloadData =>
    simp only [applyOp, Option.some.injEq] at h
    subst h
    rfl
  | showStatistics d =>
    simp only [applyOp, Option.some.injEq] at h
    subst h
    by_cases hd : s.data = [] <;> simp [show_statistics, hd, addAlert]

theorem applyOp_mode_of_running (op : Op) (s s' : AppState) (hr : s.running = true)
    (h : applyOp op s = some s') : s'.is_timer_mode = s.is_timer_mode := by
  by_cases hop : op = Op.toggleMode
  · subst hop
    simp only [applyOp, toggle_timer_mode_of_running s hr, Option.some.injEq] at h
    subst h; rfl
  · exact applyOp_mode op s s' hop h

theorem runOps_mode (ops : List Op) (s s' : AppState) (hall : RunningAll s ops)
    (h : runOps ops s = some s') : s'.is_timer_mode = s.is_timer_mode := by
  induction ops generalizing s with
  | nil =>
    simp only [runOps, Option.some.injEq] at h
    subst h; rfl
  | cons op rest ih =>
    simp only [runOps] at h
    obtain ⟨hr, hnext⟩ := hall
    cases hbind : applyOp op s with
    | none => rw [hbind] at h; simp at h
    | some s1 =>
      rw [hbind] at h
      rw [show (some s1).bind (runOps rest) = runOps rest s1 from rfl] at h
      exact (ih s1 (hnext s1 hbind) h).trans (applyOp_mode_of_running op s s1 hr hbind)

/-- C9: the session mode never changes while a session is running:
`toggle_timer_mode` is the identity on every running state, every operation
other than the toggle preserves the mode in every state, every operation
preserves the mode from a running state, and along any operation sequence
whose intermediate states are all running the mode is constant. -/
theorem claim_c9 :
    (∀ s : AppState, s.running = true → toggle_timer_mode s = s) ∧
      (∀ (op : Op) (s s' : AppState), op ≠ Op.toggleMode →
        applyOp op s = some s' → s'.is_timer_mode = s.is_timer_mode) ∧
      (∀ (op : Op) (s s' : AppState), s.running = true →
        applyOp op s = some s' → s'.is_timer_mode = s.is_timer_mode) ∧
      (∀ (ops : List Op) (s s' : AppState), RunningAll s ops →
        runOps ops s = some s' → s'.is_timer_mode = s.is_timer_mode) :=
  ⟨toggle_timer_mode_of_running,
    fun op s s' hop h => applyOp_mode op s s' hop h,
    fun op s s' hr h => applyOp_mode_of_running op s s' hr h,
    fun ops s s' hall h => runOps_mode ops s s' hall h⟩

/-- Witness instantiating C9: toggling the mode in a running session leaves
the state unchanged. -/
theorem claim_c9_witness : toggle_timer_mode demoStopwatch = demoStopwatch :=
  claim_c9.1 demoStopwatch rfl

end DeepWork
